import Mathlib

/-!
Verification of the incremental dashboard composition & session-state engine
of the OliveDemo repository.

The definitions below are a shallow embedding of the TypeScript source:
* the spec model (`frontend/src/types/dashboard.ts`),
* the session store helpers `trimResult`, `normalizeMessages`,
  `normalizeSession`, `upsertSession` (`frontend/src/App.tsx`),
* the fragment-merge logic inlined in `handleChatMessage`
  (`frontend/src/App.tsx`, lines 466-533),
* the snapshot append and failure-branch session updates of
  `handleSubmit` / `handleChatMessage` (`frontend/src/App.tsx`),
* the filter evaluation `getFilteredData` of the `SchemaRenderer`
  component.

JavaScript records (plain objects used as string-keyed maps) are embedded
as association lists `List (String × α)`; object key order models JS
insertion order.  Strings compare with the lexicographic order (the
behaviour of `localeCompare` / `>=` on the ISO-formatted strings the code
stores).  `undefined`/`null` fields are embedded as `Option`; JS string
truthiness is the test `≠ ""`.
-/

namespace OliveDemo

/-- Widget kinds, from `WidgetType` in `types/dashboard.ts`. -/
inductive WidgetType where
  | KPI | BarChart | LineChart | AreaChart | PieChart | Table | Filter
deriving DecidableEq

/-- Filter kinds, from the `filterType` union in `types/dashboard.ts`. -/
inductive FilterType where
  | dateRange | select | checkbox
deriving DecidableEq

/-- Layout kinds, from `LayoutSpec.type` in `types/dashboard.ts`. -/
inductive LayoutType where
  | Grid | Section
deriving DecidableEq

/-- `LayoutSpec` from `types/dashboard.ts`. -/
structure LayoutSpec where
  type : LayoutType
  columns : Option Nat := none
deriving DecidableEq

/-- `WidgetSpec` from `types/dashboard.ts`; optional fields are `Option`. -/
structure WidgetSpec where
  id : String
  type : WidgetType
  title : String
  description : Option String := none
  dataSource : Option String := none
  valueField : Option String := none
  trendField : Option String := none
  label : Option String := none
  xField : Option String := none
  yField : Option String := none
  groupBy : Option String := none
  columns : Option (List String) := none
  targetWidgetIds : Option (List String) := none
  filterType : Option FilterType := none
deriving DecidableEq

/-- `DataSourceSpec` from `types/dashboard.ts`. -/
structure DataSourceSpec where
  id : String
  sql : String
  primaryKey : Option String := none
deriving DecidableEq

/-- `DashboardSpec` from `types/dashboard.ts`. -/
structure DashboardSpec where
  type : String
  title : String
  layout : LayoutSpec
  widgets : List WidgetSpec
  dataSources : List DataSourceSpec
deriving DecidableEq

/-- One row of a dataset: a JS object mapping column names to scalar
values, embedded as an association list (values embedded as strings). -/
abbrev Row := List (String × String)

/-- `DashboardResponse` from `App.tsx`: a spec plus the out-of-band data
mapping from data-source id to its rows. -/
structure DashboardResponse where
  spec : DashboardSpec
  data : List (String × List Row)
deriving DecidableEq

/-- Message roles of the chat transcript. -/
inductive Role where
  | user | assistant
deriving DecidableEq

/-- One `{role, content}` transcript entry. -/
structure ChatMessage where
  role : Role
  content : String
deriving DecidableEq

/-- `DashboardSnapshot` from `App.tsx`.  The `result` field is an
`Option` because `normalizeSession` builds intermediate snapshots whose
result may be null before filtering them out. -/
structure DashboardSnapshot where
  id : String
  prompt : String
  result : Option DashboardResponse
  createdAt : String
deriving DecidableEq

/-- `ChatSession` from `App.tsx`. -/
structure ChatSession where
  id : String
  title : String
  messages : List ChatMessage
  result : Option DashboardResponse
  dashboards : List DashboardSnapshot
  createdAt : String
  updatedAt : String
deriving DecidableEq

/-- `MAX_SESSIONS` (`App.tsx`, line 50). -/
def MAX_SESSIONS : Nat := 20

/-- `MAX_ROWS_PER_SOURCE` (`App.tsx`, line 51). -/
def MAX_ROWS_PER_SOURCE : Nat := 200

/-- `trimResult` (`App.tsx`, lines 53-62): caps every data source's row
list at `MAX_ROWS_PER_SOURCE`, keeps the spec, and maps null to null. -/
def trimResult : Option DashboardResponse → Option DashboardResponse
  | none => none
  | some r =>
      some { r with data := r.data.map (fun kv => (kv.1, kv.2.take MAX_ROWS_PER_SOURCE)) }

/-- Looking a key up after mapping `f` over the values of an association
list gives the `f`-image of the original lookup. -/
theorem lookup_map_values {α : Type} (l : List (String × α)) (f : α → α) (k : String) :
    (l.map (fun kv => (kv.1, f kv.2))).lookup k = (l.lookup k).map f := by
  induction l with
  | nil => rfl
  | cons hd tl ih =>
      by_cases h : k = hd.1
      · simp [List.lookup, h]
      · have hb : (k == hd.1) = false := beq_false_of_ne h
        simp [List.lookup, hb, ih]

/-- C6: `trimResult` caps each data source's row array at 200 rows
independently: the rows stored under any key `k` become `rows.take 200`;
a source already at or below 200 rows is unchanged, and a source with
500 rows becomes exactly its first 200 rows in unchanged order. -/
theorem trimResult_caps_per_source (r : DashboardResponse) (k : String) (rows : List Row)
    (h : r.data.lookup k = some rows) :
    ∃ r2, trimResult (some r) = some r2 ∧
      r2.data.lookup k = some (rows.take MAX_ROWS_PER_SOURCE) ∧
      (rows.length ≤ MAX_ROWS_PER_SOURCE → r2.data.lookup k = some rows) ∧
      (rows.length = 500 →
        ∃ rows2, r2.data.lookup k = some rows2 ∧
          rows2.length = MAX_ROWS_PER_SOURCE ∧
          ∀ i : Nat, i < MAX_ROWS_PER_SOURCE → rows2[i]? = rows[i]?) := by
  refine ⟨{ r with data := r.data.map (fun kv => (kv.1, kv.2.take MAX_ROWS_PER_SOURCE)) }, rfl, ?_, ?_, ?_⟩
  · simp [lookup_map_values, h]
  · intro hle
    simp [lookup_map_values, h, List.take_of_length_le hle]
  · intro h500
    refine ⟨rows.take MAX_ROWS_PER_SOURCE, by simp [lookup_map_values, h], ?_, ?_⟩
    · simp [h500, MAX_ROWS_PER_SOURCE]
    · intro i hi
      simp [List.getElem?_take, hi]

/-- An empty grid layout, reused by the concrete examples below. -/
def exLayout : LayoutSpec := { type := LayoutType.Grid }

/-- A concrete one-source response used by the `trimResult` witness. -/
def exTrimResp : DashboardResponse :=
  { spec := { type := "Dashboard", title := "t", layout := exLayout,
              widgets := [], dataSources := [] },
    data := [("s1", [[("a", "1")]])] }

/-- Witness for `trimResult_caps_per_source` at a one-source response. -/
theorem trimResult_caps_per_source_witness :
    ∃ r2, trimResult (some exTrimResp) = some r2 ∧
      r2.data.lookup "s1" = some (([[("a", "1")]] : List Row).take MAX_ROWS_PER_SOURCE) ∧
      (([[("a", "1")]] : List Row).length ≤ MAX_ROWS_PER_SOURCE → r2.data.lookup "s1" = some [[("a", "1")]]) ∧
      (([[("a", "1")]] : List Row).length = 500 →
        ∃ rows2, r2.data.lookup "s1" = some rows2 ∧
          rows2.length = MAX_ROWS_PER_SOURCE ∧
          ∀ i : Nat, i < MAX_ROWS_PER_SOURCE → rows2[i]? = ([[("a", "1")]] : List Row)[i]?) :=
  trimResult_caps_per_source exTrimResp "s1" [[("a", "1")]] (by rfl)

/-- The widget ids of a spec, in widget order. -/
def widgetIds (s : DashboardSpec) : List String := s.widgets.map (fun w => w.id)

/-- The data-source ids of a spec, in source order. -/
def dataSourceIds (s : DashboardSpec) : List String := s.dataSources.map (fun d => d.id)

/-- The `sourceIdMap` built by `handleChatMessage` (App.tsx 475-488):
old source id ↦ namespaced id.  Every write for a key `k` stores
`k ++ suffix`, so the JS object is embedded as the association list of
those pairs (duplicate keys carry identical values). -/
def sourceIdMap (su : String) (dss : List DataSourceSpec) : List (String × String) :=
  dss.map (fun ds => (ds.id, ds.id ++ su))

/-- Data-source renaming of the merge (App.tsx 478-488). -/
def remapDataSource (su : String) (ds : DataSourceSpec) : DataSourceSpec :=
  { ds with id := ds.id ++ su }

/-- Widget renaming of the merge (App.tsx 491-499): namespaces the
widget id, rewrites `dataSource` through the remap table (JS string
truthiness: an empty or absent `dataSource` stays `undefined`, and a
lookup miss yields `undefined`), and namespaces all `targetWidgetIds`. -/
def remapDataSourceRef (m : List (String × String)) : Option String → Option String
  | some s => if s = "" then none else m.lookup s
  | none => none

/-- Widget renaming of the merge (App.tsx 491-499). -/
def remapWidget (su : String) (m : List (String × String)) (w : WidgetSpec) : WidgetSpec :=
  { w with
    id := w.id ++ su,
    dataSource := remapDataSourceRef m w.dataSource,
    targetWidgetIds := w.targetWidgetIds.map (fun tids => tids.map (fun t => t ++ su)) }

/-- The namespaced incoming datasets (App.tsx 482-485): each incoming
source that has rows under its old id moves them to the namespaced id. -/
def remappedNewData (su : String) (incoming : DashboardResponse) : List (String × List Row) :=
  incoming.spec.dataSources.filterMap
    (fun ds => (incoming.data.lookup ds.id).map (fun rows => (ds.id ++ su, rows)))

/-- JS object spread `{...a, ...b}` on string-keyed records: keys of `a`
keep their position (values overridden by `b` where present) and keys
only in `b` are appended in order. -/
def jsSpread (a b : List (String × List Row)) : List (String × List Row) :=
  a.map (fun kv => match b.lookup kv.1 with | some v => (kv.1, v) | none => kv)
    ++ b.filter (fun kv => (a.lookup kv.1).isNone)

/-- The fragment merge inlined in `handleChatMessage` (App.tsx 466-513):
namespace every incoming id with the batch suffix, rewrite incoming
references through the remap table, and append the renamed widgets,
sources and datasets onto the existing response. -/
def mergeChatResult (existing incoming : DashboardResponse) (batchSuffix : String) :
    DashboardResponse :=
  let m := sourceIdMap batchSuffix incoming.spec.dataSources
  { spec := { existing.spec with
      widgets := existing.spec.widgets
        ++ incoming.spec.widgets.map (remapWidget batchSuffix m),
      dataSources := existing.spec.dataSources
        ++ incoming.spec.dataSources.map (remapDataSource batchSuffix) },
    data := jsSpread existing.data (remappedNewData batchSuffix incoming) }

/-- Well-formedness of a dashboard spec (spec.md §3): unique widget ids,
unique data-source ids, and internally resolvable references. -/
def specWellFormed (s : DashboardSpec) : Prop :=
  (widgetIds s).Nodup ∧ (dataSourceIds s).Nodup ∧
  (∀ w ∈ s.widgets, w.dataSource.all (fun ds => (dataSourceIds s).contains ds) = true) ∧
  (∀ w ∈ s.widgets, (w.targetWidgetIds.getD []).all (fun t => (widgetIds s).contains t) = true)

instance (s : DashboardSpec) : Decidable (specWellFormed s) := by
  unfold specWellFormed
  infer_instance

/-- Reference integrity of a spec: every widget's `dataSource` names an
id present in `dataSources`, and every widget's `targetWidgetIds` name
ids present in `widgets`. -/
def refsResolve (s : DashboardSpec) : Prop :=
  (∀ w ∈ s.widgets, ∀ ds, w.dataSource = some ds → ds ∈ dataSourceIds s) ∧
  (∀ w ∈ s.widgets, ∀ tids, w.targetWidgetIds = some tids → ∀ t ∈ tids, t ∈ widgetIds s)

/-- A hit in the remap table always carries the namespaced form of the
key, and the key is one of the incoming source ids. -/
theorem sourceIdMap_lookup_eq (su : String) (dss : List DataSourceSpec) (s v : String)
    (h : (sourceIdMap su dss).lookup s = some v) :
    v = s ++ su ∧ s ∈ dss.map (fun d => d.id) := by
  induction dss with
  | nil => simp [sourceIdMap] at h
  | cons hd tl ih =>
      by_cases hk : s = hd.id
      · simp [sourceIdMap, List.lookup, hk] at h
        simp [hk, ← h]
      · have hb : (s == hd.id) = false := beq_false_of_ne hk
        simp [sourceIdMap, List.lookup, hb] at h
        have := ih h
        simp [this.1, this.2]

/-- The widget ids of the merged spec are the existing ids followed by
the namespaced incoming ids. -/
theorem widgetIds_mergeChatResult (A B : DashboardResponse) (su : String) :
    widgetIds (mergeChatResult A B su).spec
      = widgetIds A.spec ++ (widgetIds B.spec).map (fun b => b ++ su) := by
  simp [mergeChatResult, widgetIds, remapWidget, List.map_map, Function.comp]

/-- The data-source ids of the merged spec are the existing ids followed
by the namespaced incoming ids. -/
theorem dataSourceIds_mergeChatResult (A B : DashboardResponse) (su : String) :
    dataSourceIds (mergeChatResult A B su).spec
      = dataSourceIds A.spec ++ (dataSourceIds B.spec).map (fun b => b ++ su) := by
  simp [mergeChatResult, dataSourceIds, remapDataSource, List.map_map, Function.comp]

/-- C2: the merge appends and never drops: the merged spec has exactly
`|A.widgets| + |B.widgets|` widgets and
`|A.dataSources| + |B.dataSources|` data sources. -/
theorem mergeChatResult_counts (A B : DashboardResponse) (su : String) :
    (mergeChatResult A B su).spec.widgets.length
        = A.spec.widgets.length + B.spec.widgets.length
      ∧ (mergeChatResult A B su).spec.dataSources.length
        = A.spec.dataSources.length + B.spec.dataSources.length := by
  simp [mergeChatResult]

/-- C1: after `mergeChatResult A B su` of well-formed `A` and `B`, every
widget's `dataSource` reference and every widget's `targetWidgetIds`
resolve to ids present in the merged spec. -/
theorem mergeChatResult_refs_resolve (A B : DashboardResponse) (su : String)
    (hA : specWellFormed A.spec) (hB : specWellFormed B.spec) :
    refsResolve (mergeChatResult A B su).spec := by
  obtain ⟨-, -, hAds, hAtg⟩ := hA
  obtain ⟨-, -, hBds, hBtg⟩ := hB
  constructor
  · intro w hw ds hds
    rw [dataSourceIds_mergeChatResult]
    simp only [mergeChatResult, List.mem_append, List.mem_map] at hw
    rcases hw with hw | ⟨w0, hw0, rfl⟩
    · -- an existing widget: its reference resolves inside `A`
      have := hAds w hw
      rw [hds] at this
      simp only [Option.all_some] at this
      exact List.mem_append_left _ (by simpa using this)
    · -- a namespaced incoming widget: its reference went through the map
      simp only [remapWidget] at hds
      rcases h0 : w0.dataSource with _ | s
      · rw [h0] at hds; cases hds
      · rw [h0, remapDataSourceRef] at hds
        by_cases hs : s = ""
        · rw [if_pos hs] at hds; cases hds
        · rw [if_neg hs] at hds
          obtain ⟨rfl, hmem⟩ := sourceIdMap_lookup_eq su B.spec.dataSources s ds hds
          exact List.mem_append_right _ (List.mem_map_of_mem _ hmem)
  · intro w hw tids htids t ht
    rw [widgetIds_mergeChatResult]
    simp only [mergeChatResult, List.mem_append, List.mem_map] at hw
    rcases hw with hw | ⟨w0, hw0, rfl⟩
    · -- an existing widget: its targets resolve inside `A`
      have := hAtg w hw
      rw [htids] at this
      simp only [Option.getD_some, List.all_eq_true] at this
      have := this t ht
      exact List.mem_append_left _ (by simpa using this)
    · -- a namespaced incoming widget: targets are the namespaced originals
      simp only [remapWidget] at htids
      rcases h0 : w0.targetWidgetIds with _ | tids0
      · rw [h0] at htids; cases htids
      · rw [h0] at htids
        simp only [Option.map_some'] at htids
        obtain rfl := Option.some.inj htids
        simp only [List.mem_map] at ht
        obtain ⟨t0, ht0, rfl⟩ := ht
        have := hBtg w0 hw0
        rw [h0] at this
        simp only [Option.getD_some, List.all_eq_true] at this
        have := this t0 ht0
        exact List.mem_append_right _ (List.mem_map_of_mem _ (by simpa using this))

/-- Appending a fixed suffix is injective on strings. -/
theorem append_suffix_injective (su : String) :
    Function.Injective (fun s : String => s ++ su) := by
  intro a b h
  have h2 : a.data ++ su.data = b.data ++ su.data := by
    simpa [String.data_append] using congrArg String.data h
  exact String.ext (List.append_cancel_right h2)

/-- Amended C3: when no existing id coincides with a namespaced incoming
id (in particular whenever the batch suffix is fresh for `A`), the
merged widget and data-source id lists are exactly the existing ids
followed by the namespaced incoming ids, with no duplicates — a disjoint
union. -/
theorem mergeChatResult_ids_disjoint_union (A B : DashboardResponse) (su : String)
    (hA : specWellFormed A.spec) (hB : specWellFormed B.spec)
    (hW : ∀ a ∈ widgetIds A.spec, ∀ b ∈ widgetIds B.spec, a ≠ b ++ su)
    (hD : ∀ a ∈ dataSourceIds A.spec, ∀ b ∈ dataSourceIds B.spec, a ≠ b ++ su) :
    widgetIds (mergeChatResult A B su).spec
        = widgetIds A.spec ++ (widgetIds B.spec).map (fun b => b ++ su)
      ∧ (widgetIds (mergeChatResult A B su).spec).Nodup
      ∧ dataSourceIds (mergeChatResult A B su).spec
        = dataSourceIds A.spec ++ (dataSourceIds B.spec).map (fun b => b ++ su)
      ∧ (dataSourceIds (mergeChatResult A B su).spec).Nodup := by
  refine ⟨widgetIds_mergeChatResult A B su, ?_, dataSourceIds_mergeChatResult A B su, ?_⟩
  · rw [widgetIds_mergeChatResult, List.nodup_append]
    refine ⟨hA.1, (hB.1).map (append_suffix_injective su), ?_⟩
    intro a ha hmem
    simp only [List.mem_map] at hmem
    obtain ⟨b, hb, hEq⟩ := hmem
    exact hW a ha b hb hEq.symm
  · rw [dataSourceIds_mergeChatResult, List.nodup_append]
    refine ⟨hA.2.1, (hB.2.1).map (append_suffix_injective su), ?_⟩
    intro a ha hmem
    simp only [List.mem_map] at hmem
    obtain ⟨b, hb, hEq⟩ := hmem
    exact hD a ha b hb hEq.symm

/-- The descending-`updatedAt` ordering used by `upsertSession`
(App.tsx 144): `a` may precede `b` when `b.updatedAt ≤ a.updatedAt`,
i.e. when `(b.updatedAt || '').localeCompare(a.updatedAt || '') ≤ 0` on
the ISO timestamp strings the code stores. -/
def sessionGE (a b : ChatSession) : Prop := b.updatedAt ≤ a.updatedAt

instance : DecidableRel sessionGE := fun a b =>
  inferInstanceAs (Decidable (b.updatedAt ≤ a.updatedAt))

instance : IsTotal ChatSession sessionGE :=
  ⟨fun a b => (le_total a.updatedAt b.updatedAt).symm⟩

instance : IsTrans ChatSession sessionGE :=
  ⟨fun _ _ _ h1 h2 => le_trans h2 h1⟩

/-- The insert-or-replace step of `upsertSession` (App.tsx 141-142). -/
def upsertMerge (session : ChatSession) (prev : List ChatSession) : List ChatSession :=
  match prev.findIdx? (fun s => s.id == session.id) with
  | some idx => prev.take idx ++ session :: prev.drop (idx + 1)
  | none => session :: prev

/-- The sort step of `upsertSession` (App.tsx 144): most recently
updated first.  `Array.prototype.sort` with a consistent comparator
produces some permutation ordered by the comparator; it is embedded as
insertion sort by `sessionGE`. -/
def upsertSorted (session : ChatSession) (prev : List ChatSession) : List ChatSession :=
  List.insertionSort sessionGE (upsertMerge session prev)

/-- `upsertSession` (App.tsx 139-147): insert or replace by id, sort by
`updatedAt` descending, truncate to `MAX_SESSIONS`. -/
def upsertSession (session : ChatSession) (prev : List ChatSession) : List ChatSession :=
  (upsertSorted session prev).take MAX_SESSIONS

/-- C5: after any upsert — hence after any sequence of upserts — the
session collection holds at most 20 sessions, is sorted by `updatedAt`
descending, is a truncation of a permutation of the inserted
collection, and any session dropped by the truncation has an
`updatedAt` no newer than every kept session's. -/
theorem upsertSession_cap_sorted_evicts (s : ChatSession) (prev : List ChatSession) :
    (upsertSession s prev).length ≤ MAX_SESSIONS
      ∧ (upsertSession s prev).Sorted sessionGE
      ∧ (upsertSorted s prev).Perm (upsertMerge s prev)
      ∧ ∀ dropped ∈ (upsertSorted s prev).drop MAX_SESSIONS,
          ∀ kept ∈ upsertSession s prev, dropped.updatedAt ≤ kept.updatedAt := by
  have hsorted : (upsertSorted s prev).Sorted sessionGE :=
    List.sorted_insertionSort sessionGE (upsertMerge s prev)
  refine ⟨?_, ?_, List.perm_insertionSort sessionGE (upsertMerge s prev), ?_⟩
  · simp [upsertSession, List.length_take]
  · exact List.Pairwise.sublist (List.take_sublist _ _) hsorted
  · have hp : List.Pairwise sessionGE
        ((upsertSorted s prev).take MAX_SESSIONS
          ++ (upsertSorted s prev).drop MAX_SESSIONS) := by
      rw [List.take_append_drop]; exact hsorted
    have h3 := (List.pairwise_append.mp hp).2.2
    intro d hd k hk
    exact h3 k hk d hd

/-- The snapshot append of the success branches (App.tsx 311, 530, 549):
`[...updatedSession.dashboards, dashboardSnapshot].slice(0, MAX_SESSIONS)`. -/
def appendSnapshot (dashboards : List DashboardSnapshot) (snap : DashboardSnapshot) :
    List DashboardSnapshot :=
  (dashboards ++ [snap]).take MAX_SESSIONS

/-- A snapshot standing for an old history entry. -/
def exOldSnap : DashboardSnapshot :=
  { id := "old", prompt := "p", result := some exTrimResp, createdAt := "t0" }

/-- A snapshot standing for the freshly merged dashboard. -/
def exNewSnap : DashboardSnapshot :=
  { id := "new", prompt := "q", result := some exTrimResp, createdAt := "t1" }

/-- C4 (code bug): once a session already holds 20 snapshots, the
success-branch append is a silent no-op — the history keeps the old 20
snapshots unchanged and the freshly merged snapshot is discarded, so
the dashboards array does not grow by one per successful merge. -/
theorem appendSnapshot_at_cap_drops_new :
    (appendSnapshot (List.replicate MAX_SESSIONS exOldSnap) exNewSnap).length
        = (List.replicate MAX_SESSIONS exOldSnap).length
      ∧ exNewSnap ∉ appendSnapshot (List.replicate MAX_SESSIONS exOldSnap) exNewSnap
      ∧ appendSnapshot (List.replicate MAX_SESSIONS exOldSnap) exNewSnap
        = List.replicate MAX_SESSIONS exOldSnap := by decide

/-- An untrusted persisted message (App.tsx 64-68): `role` is compared
against the exact string "assistant"; `content` is `some` only when the
stored value is a string. -/
structure RawMessage where
  role : Option String := none
  content : Option String := none
deriving DecidableEq

/-- An untrusted persisted snapshot (App.tsx 74-81); each field may be
absent (`none` also covers a value of the wrong runtime type). -/
structure RawDashboard where
  id : Option String := none
  prompt : Option String := none
  result : Option DashboardResponse := none
  createdAt : Option String := none
deriving DecidableEq

/-- An untrusted persisted session (App.tsx 70-102): every field may be
absent or of the wrong shape; `dashboards = none` covers both a missing
field and a non-array value. -/
structure RawSession where
  id : Option String := none
  title : Option String := none
  messages : Option (List RawMessage) := none
  result : Option DashboardResponse := none
  dashboards : Option (List RawDashboard) := none
  createdAt : Option String := none
  updatedAt : Option String := none
deriving DecidableEq

/-- `normalizeMessages` (App.tsx 64-68): any role other than
"assistant" becomes `user`; non-string content becomes the empty
string. -/
def normalizeMessages (messages : Option (List RawMessage)) : List ChatMessage :=
  (messages.getD []).map (fun m =>
    { role := if m.role = some "assistant" then Role.assistant else Role.user,
      content := m.content.getD "" })

/-- `normalizeSession` (App.tsx 70-102).  `now` stands for
`new Date().toISOString()` and `nowMs` for `Date.now()`, both read at
the call. -/
def normalizeSession (now : String) (nowMs : Nat) (session : Option RawSession) :
    ChatSession :=
  let normalizedResult := trimResult (session.bind (fun s => s.result))
  let dashboardsRaw := (session.bind (fun s => s.dashboards)).getD []
  let dashboards :=
    (dashboardsRaw.map (fun d =>
      ({ id := d.id.getD ("dash-" ++ toString nowMs),
         prompt := d.prompt.getD "",
         result := trimResult d.result,
         createdAt := d.createdAt.getD now } : DashboardSnapshot))).filter
      (fun d => d.result.isSome)
  let dashboards :=
    if dashboards.isEmpty && normalizedResult.isSome then
      [{ id := "dash-" ++ toString nowMs,
         prompt := (session.bind (fun s => s.title)).getD "Dashboard",
         result := normalizedResult,
         createdAt := now }]
    else dashboards
  { id := (session.bind (fun s => s.id)).getD ("chat-" ++ toString nowMs),
    title := (session.bind (fun s => s.title)).getD "Chat",
    messages := normalizeMessages (session.bind (fun s => s.messages)),
    result := normalizedResult,
    dashboards := dashboards,
    createdAt := (session.bind (fun s => s.createdAt)).getD now,
    updatedAt := (session.bind (fun s => s.updatedAt)).getD now }

/-- C8: a legacy-shaped record with a non-null `result` and no
`dashboards` array normalizes to exactly one snapshot, backfilled from
the (trimmed) legacy result; a null/absent input normalizes to a
well-formed empty session with `messages = []` and `dashboards = []`. -/
theorem normalizeSession_backfills_and_empty (now : String) (nowMs : Nat)
    (raw : RawSession) (r : DashboardResponse)
    (hres : raw.result = some r) (hdash : raw.dashboards = none) :
    ((normalizeSession now nowMs (some raw)).dashboards.length = 1
      ∧ ∃ snap, (normalizeSession now nowMs (some raw)).dashboards = [snap]
          ∧ snap.result = trimResult (some r)
          ∧ snap.prompt = raw.title.getD "Dashboard")
    ∧ (normalizeSession now nowMs none).messages = []
    ∧ (normalizeSession now nowMs none).dashboards = [] := by
  refine ⟨⟨?_, ?_⟩, ?_, ?_⟩
  · simp [normalizeSession, hres, hdash, trimResult]
  · refine ⟨{ id := "dash-" ++ toString nowMs,
              prompt := raw.title.getD "Dashboard",
              result := trimResult (some r),
              createdAt := now }, ?_, rfl, rfl⟩
    simp [normalizeSession, hres, hdash, trimResult]
  · simp [normalizeSession, normalizeMessages]
  · simp [normalizeSession, trimResult]

/-- A legacy raw session: a stored result but no dashboards array. -/
def exLegacyRaw : RawSession := { title := some "Users", result := some exTrimResp }

/-- Witness for `normalizeSession_backfills_and_empty` at a concrete
legacy record. -/
theorem normalizeSession_backfills_and_empty_witness :
    ((normalizeSession "2024-01-01T00:00:00.000Z" 7 (some exLegacyRaw)).dashboards.length = 1
      ∧ ∃ snap, (normalizeSession "2024-01-01T00:00:00.000Z" 7 (some exLegacyRaw)).dashboards = [snap]
          ∧ snap.result = trimResult (some exTrimResp)
          ∧ snap.prompt = exLegacyRaw.title.getD "Dashboard")
    ∧ (normalizeSession "2024-01-01T00:00:00.000Z" 7 none).messages = []
    ∧ (normalizeSession "2024-01-01T00:00:00.000Z" 7 none).dashboards = [] :=
  normalizeSession_backfills_and_empty "2024-01-01T00:00:00.000Z" 7 exLegacyRaw exTrimResp
    (by rfl) (by rfl)

/-- The catch-branch session update shared by `handleSubmit`
(App.tsx 324-337) and `handleChatMessage` (App.tsx 562-571): append one
assistant error message, keep the snapshot history, and store the trim
of the last-good in-memory result. -/
def failureSession (updatedSession : ChatSession) (lastGood : Option DashboardResponse)
    (errorMsg now : String) : ChatSession :=
  { updatedSession with
    messages := updatedSession.messages
      ++ [{ role := Role.assistant, content := "Error: " ++ errorMsg }],
    dashboards := updatedSession.dashboards,
    result := trimResult lastGood,
    updatedAt := now }

/-- C9: a fragment-fetch failure appends exactly one assistant-role
error message to the transcript and leaves both the snapshot history
and the stored result at their last-good value (the stored result is
the trim of the last-good in-memory result, which the success paths
maintain). -/
theorem failureSession_appends_one_error (u : ChatSession)
    (lastGood : Option DashboardResponse) (e now : String)
    (h : u.result = trimResult lastGood) :
    (failureSession u lastGood e now).messages
        = u.messages ++ [{ role := Role.assistant, content := "Error: " ++ e }]
      ∧ (failureSession u lastGood e now).messages.length = u.messages.length + 1
      ∧ (∀ m ∈ (failureSession u lastGood e now).messages.drop u.messages.length,
          m.role = Role.assistant)
      ∧ (failureSession u lastGood e now).dashboards = u.dashboards
      ∧ (failureSession u lastGood e now).result = u.result := by
  refine ⟨rfl, by simp [failureSession], ?_, rfl, by simp [failureSession, h]⟩
  intro m hm
  rw [show (failureSession u lastGood e now).messages
        = u.messages ++ [{ role := Role.assistant, content := "Error: " ++ e }] from rfl,
      List.drop_left] at hm
  simp only [List.mem_singleton] at hm
  rw [hm]

/-- A session in the steady state the success paths maintain: its
stored result is the trim of the last-good in-memory result. -/
def exSteadySession : ChatSession :=
  { id := "chat-1", title := "Users", messages := [{ role := Role.user, content := "hi" }],
    result := trimResult (some exTrimResp), dashboards := [exOldSnap],
    createdAt := "t0", updatedAt := "t0" }

/-- Witness for `failureSession_appends_one_error` at a concrete
session. -/
theorem failureSession_appends_one_error_witness :
    (failureSession exSteadySession (some exTrimResp) "boom" "t1").messages
        = exSteadySession.messages ++ [{ role := Role.assistant, content := "Error: " ++ "boom" }]
      ∧ (failureSession exSteadySession (some exTrimResp) "boom" "t1").messages.length
        = exSteadySession.messages.length + 1
      ∧ (∀ m ∈ (failureSession exSteadySession (some exTrimResp) "boom" "t1").messages.drop
            exSteadySession.messages.length, m.role = Role.assistant)
      ∧ (failureSession exSteadySession (some exTrimResp) "boom" "t1").dashboards
        = exSteadySession.dashboards
      ∧ (failureSession exSteadySession (some exTrimResp) "boom" "t1").result
        = exSteadySession.result :=
  failureSession_appends_one_error exSteadySession (some exTrimResp) "boom" "t1" (by rfl)

/-- Character-list prefix test, building block of `jsIncludes`. -/
def chPre : List Char → List Char → Bool
  | [], _ => true
  | _ :: _, [] => false
  | a :: as, b :: bs => a == b && chPre as bs

/-- Character-list substring test, building block of `jsIncludes`. -/
def chSub (p : List Char) : List Char → Bool
  | [] => p.isEmpty
  | c :: cs => chPre p (c :: cs) || chSub p cs

/-- `String.prototype.includes`: `pat` occurs contiguously in `s`. -/
def jsIncludes (s pat : String) : Bool := chSub pat.data s.data

/-- The date-column predicate (SchemaRenderer.tsx 40-42):
`key.toLowerCase().includes('date') || key.toLowerCase().includes('time')`. -/
def isDateLikeKey (k : String) : Bool :=
  jsIncludes k.toLower "date" || jsIncludes k.toLower "time"

/-- `Object.keys(rawData[0] || {}).find(...)` (SchemaRenderer.tsx
40-42): the first date/time-like column of the current first row. -/
def findDateColumn (rows : List Row) : Option String :=
  ((rows.head?.getD []).map Prod.fst).find? isDateLikeKey

/-- A current date-range filter value `{start, end}`.  An absent
endpoint is embedded as the empty string (both are falsy in JS); `endv`
embeds the field `end`, a Lean keyword. -/
structure FilterValue where
  start : String := ""
  endv : String := ""
deriving DecidableEq

/-- The date-range row restriction (SchemaRenderer.tsx 36-50): keep the
rows whose value in the first date/time-like column lies in
`[start, end]` inclusive; pass rows through when no column matches.  A
row missing the column compares false (JS `undefined >= x`). -/
def applyDateFilter (v : FilterValue) (rows : List Row) : List Row :=
  match findDateColumn rows with
  | some col => rows.filter (fun row =>
      match row.lookup col with
      | some x => decide (v.start ≤ x) && decide (x ≤ v.endv)
      | none => false)
  | none => rows

/-- One iteration of the filter loop (SchemaRenderer.tsx 33-52): a
filter acts only when it has a current value, is a date-range filter,
and both endpoints are truthy; otherwise the rows pass unchanged. -/
def applyOneFilter (filterValues : List (String × FilterValue)) (fw : WidgetSpec)
    (rows : List Row) : List Row :=
  match filterValues.lookup fw.id with
  | none => rows
  | some v =>
      if fw.filterType = some FilterType.dateRange ∧ v.start ≠ "" ∧ v.endv ≠ "" then
        applyDateFilter v rows
      else rows

/-- The filter widgets targeting `widgetId` (SchemaRenderer.tsx 27-29). -/
def activeFilters (spec : DashboardSpec) (widgetId : String) : List WidgetSpec :=
  spec.widgets.filter (fun w =>
    decide (w.type = WidgetType.Filter) && (w.targetWidgetIds.getD []).contains widgetId)

/-- `getFilteredData` (SchemaRenderer.tsx 21-56): look the dataset up
(an absent or falsy data-source id yields `[]`), then run every active
filter over it in sequence. -/
def getFilteredData (spec : DashboardSpec) (data : List (String × List Row))
    (filterValues : List (String × FilterValue)) (dataSourceId : Option String)
    (widgetId : String) : List Row :=
  match dataSourceId with
  | none => []
  | some dsId =>
      if dsId = "" then []
      else (activeFilters spec widgetId).foldl
        (fun rd fw => applyOneFilter filterValues fw rd)
        ((data.lookup dsId).getD [])

/-- The date-range restriction only removes rows. -/
theorem applyDateFilter_sublist (v : FilterValue) (rows : List Row) :
    (applyDateFilter v rows).Sublist rows := by
  unfold applyDateFilter
  split
  · exact List.filter_sublist rows
  · exact List.Sublist.refl rows

/-- One filter iteration only removes rows. -/
theorem applyOneFilter_sublist (fv : List (String × FilterValue)) (fw : WidgetSpec)
    (rows : List Row) : (applyOneFilter fv fw rows).Sublist rows := by
  unfold applyOneFilter
  split
  · exact List.Sublist.refl rows
  · split
    · exact applyDateFilter_sublist _ rows
    · exact List.Sublist.refl rows

/-- The whole filter loop only removes rows: filters compose by
sequential narrowing. -/
theorem foldl_filters_sublist (fv : List (String × FilterValue)) (fs : List WidgetSpec)
    (rows : List Row) :
    (fs.foldl (fun rd fw => applyOneFilter fv fw rd) rows).Sublist rows := by
  induction fs generalizing rows with
  | nil => exact List.Sublist.refl rows
  | cons f fs ih =>
      exact (ih (applyOneFilter fv f rows)).trans (applyOneFilter_sublist fv f rows)

/-- A filter with no current value, or whose value misses an endpoint,
or which is not a date-range filter, passes rows unchanged. -/
theorem applyOneFilter_noop (fv : List (String × FilterValue)) (fw : WidgetSpec)
    (rows : List Row)
    (h : ∀ v, fv.lookup fw.id = some v → (v.start = "" ∨ v.endv = "")) :
    applyOneFilter fv fw rows = rows := by
  unfold applyOneFilter
  split
  · rfl
  · next v heq =>
      have hcase := h v heq
      refine if_neg ?_
      rintro ⟨-, hs, he⟩
      rcases hcase with hc | hc
      · exact hs hc
      · exact he hc

/-- A loop of no-op filters is the identity. -/
theorem foldl_filters_noop (fv : List (String × FilterValue)) (fs : List WidgetSpec)
    (rows : List Row)
    (h : ∀ fw ∈ fs, ∀ v, fv.lookup fw.id = some v → (v.start = "" ∨ v.endv = "")) :
    fs.foldl (fun rd fw => applyOneFilter fv fw rd) rows = rows := by
  induction fs generalizing rows with
  | nil => rfl
  | cons f fs ih =>
      rw [List.foldl_cons, applyOneFilter_noop fv f rows (h f (by simp))]
      exact ih rows (fun fw hfw => h fw (List.mem_cons_of_mem f hfw))

/-- C7: for a widget targeted by exactly one date-range filter whose
current value has both endpoints set, `getFilteredData` keeps exactly
the rows whose value in the first date/time-like column of the row
shape lies in `[start, end]` inclusive; with no such column the dataset
passes unchanged; and (last conjunct) any sequence of applicable
filters only narrows the dataset. -/
theorem getFilteredData_dateRange (spec : DashboardSpec) (data : List (String × List Row))
    (fv : List (String × FilterValue)) (dsId widgetId : String) (fw : WidgetSpec)
    (v : FilterValue)
    (hds : dsId ≠ "")
    (hactive : activeFilters spec widgetId = [fw])
    (hval : fv.lookup fw.id = some v)
    (hkind : fw.filterType = some FilterType.dateRange)
    (hstart : v.start ≠ "") (hend : v.endv ≠ "") :
    (∀ col, findDateColumn ((data.lookup dsId).getD []) = some col →
        getFilteredData spec data fv (some dsId) widgetId
          = ((data.lookup dsId).getD []).filter (fun row =>
              match row.lookup col with
              | some x => decide (v.start ≤ x) && decide (x ≤ v.endv)
              | none => false))
      ∧ (findDateColumn ((data.lookup dsId).getD []) = none →
          getFilteredData spec data fv (some dsId) widgetId = (data.lookup dsId).getD [])
      ∧ ∀ ds2 : String, (getFilteredData spec data fv (some ds2) widgetId).Sublist
          ((data.lookup ds2).getD []) := by
  have hbase : getFilteredData spec data fv (some dsId) widgetId
      = applyDateFilter v ((data.lookup dsId).getD []) := by
    simp only [getFilteredData, if_neg hds, hactive, List.foldl_cons, List.foldl_nil,
      applyOneFilter, hval, if_pos (And.intro hkind (And.intro hstart hend))]
  refine ⟨?_, ?_, ?_⟩
  · intro col hcol
    rw [hbase]
    unfold applyDateFilter
    rw [hcol]
  · intro hcol
    rw [hbase]
    unfold applyDateFilter
    rw [hcol]
  · intro ds2
    simp only [getFilteredData]
    by_cases h2 : ds2 = ""
    · rw [if_pos h2]; exact List.nil_sublist _
    · rw [if_neg h2]; exact foldl_filters_sublist fv _ _

/-- C10: when every date-range filter targeting the widget lacks a
current value or a truthy endpoint, `getFilteredData` returns the
widget's dataset unchanged. -/
theorem getFilteredData_noop_when_unset (spec : DashboardSpec)
    (data : List (String × List Row)) (fv : List (String × FilterValue))
    (dsId widgetId : String)
    (hds : dsId ≠ "")
    (h : ∀ fw ∈ activeFilters spec widgetId,
        fw.filterType = some FilterType.dateRange
          ∧ ∀ v, fv.lookup fw.id = some v → (v.start = "" ∨ v.endv = "")) :
    getFilteredData spec data fv (some dsId) widgetId = (data.lookup dsId).getD [] := by
  simp only [getFilteredData, if_neg hds]
  exact foldl_filters_noop fv _ _ (fun fw hfw => (h fw hfw).2)

/-- A well-formed existing dashboard: one table bound to source `s1`. -/
def exA : DashboardResponse :=
  { spec := { type := "Dashboard", title := "A", layout := exLayout,
              widgets := [{ id := "w1", type := WidgetType.Table, title := "users",
                            dataSource := some "s1" }],
              dataSources := [{ id := "s1", sql := "q1" }] },
    data := [("s1", [[("name", "a")]])] }

/-- A well-formed incoming fragment reusing the ids `w1` and `s1`, with
a filter widget targeting its own chart. -/
def exB : DashboardResponse :=
  { spec := { type := "Dashboard", title := "B", layout := exLayout,
              widgets := [{ id := "w1", type := WidgetType.LineChart, title := "trend",
                            dataSource := some "s1" },
                          { id := "f1", type := WidgetType.Filter, title := "range",
                            targetWidgetIds := some ["w1"],
                            filterType := some FilterType.dateRange }],
              dataSources := [{ id := "s1", sql := "q2" }] },
    data := [("s1", [[("date", "2024-01-15")]])] }

/-- Witness for `mergeChatResult_refs_resolve`: the merge of two
well-formed responses that reuse the same ids. -/
theorem mergeChatResult_refs_resolve_witness :
    refsResolve (mergeChatResult exA exB "_m1").spec :=
  mergeChatResult_refs_resolve exA exB "_m1" (by decide) (by decide)

/-- A well-formed existing dashboard whose widget id already ends in
the batch token `_t`. -/
def cxA : DashboardResponse :=
  { spec := { type := "Dashboard", title := "A", layout := exLayout,
              widgets := [{ id := "w_t", type := WidgetType.Table, title := "wa" }],
              dataSources := [] },
    data := [] }

/-- A well-formed incoming fragment whose widget id plus the batch
token `_t` collides with `cxA`'s widget id. -/
def cxB : DashboardResponse :=
  { spec := { type := "Dashboard", title := "B", layout := exLayout,
              widgets := [{ id := "w", type := WidgetType.Table, title := "wb" }],
              dataSources := [] },
    data := [] }

/-- Counterexample to C3 as stated: for the well-formed `cxA` and `cxB`
the merge with batch token `_t` duplicates the widget id `w_t`, so the
merged widget id set is not a disjoint union of the previous ids and
the namespaced incoming ids. -/
theorem mergeChatResult_ids_collision_cx :
    specWellFormed cxA.spec ∧ specWellFormed cxB.spec ∧
      ¬ (widgetIds (mergeChatResult cxA cxB "_t").spec).Nodup := by decide

/-- Witness for `mergeChatResult_ids_disjoint_union`: the same
colliding pair under a token that is fresh for `cxA`. -/
theorem mergeChatResult_ids_disjoint_union_witness :
    widgetIds (mergeChatResult cxA cxB "_u").spec
        = widgetIds cxA.spec ++ (widgetIds cxB.spec).map (fun b => b ++ "_u")
      ∧ (widgetIds (mergeChatResult cxA cxB "_u").spec).Nodup
      ∧ dataSourceIds (mergeChatResult cxA cxB "_u").spec
        = dataSourceIds cxA.spec ++ (dataSourceIds cxB.spec).map (fun b => b ++ "_u")
      ∧ (dataSourceIds (mergeChatResult cxA cxB "_u").spec).Nodup :=
  mergeChatResult_ids_disjoint_union cxA cxB "_u" (by decide) (by decide) (by decide) (by decide)

/-- The date-range filter widget of the filter-engine examples. -/
def exFilterWidget : WidgetSpec :=
  { id := "f1", type := WidgetType.Filter, title := "range",
    targetWidgetIds := some ["w1"], filterType := some FilterType.dateRange }

/-- A spec with one table and one date-range filter targeting it. -/
def exFilterSpec : DashboardSpec :=
  { type := "Dashboard", title := "F", layout := exLayout,
    widgets := [{ id := "w1", type := WidgetType.Table, title := "users",
                  dataSource := some "s1" },
                exFilterWidget],
    dataSources := [{ id := "s1", sql := "q3" }] }

/-- Two rows with a `date` column, one inside and one outside January. -/
def exFilterData : List (String × List Row) :=
  [("s1", [[("date", "2024-01-15"), ("v", "1")], [("date", "2024-02-01"), ("v", "2")]])]

/-- A complete current value for the filter. -/
def exFilterVal : FilterValue := { start := "2024-01-01", endv := "2024-01-31" }

/-- The filter state holding `exFilterVal` for `f1`. -/
def exFilterValues : List (String × FilterValue) := [("f1", exFilterVal)]

/-- Witness for `getFilteredData_dateRange` at the concrete January
range over two dated rows. -/
theorem getFilteredData_dateRange_witness :
    (∀ col, findDateColumn ((exFilterData.lookup "s1").getD []) = some col →
        getFilteredData exFilterSpec exFilterData exFilterValues (some "s1") "w1"
          = ((exFilterData.lookup "s1").getD []).filter (fun row =>
              match row.lookup col with
              | some x => decide (exFilterVal.start ≤ x) && decide (x ≤ exFilterVal.endv)
              | none => false))
      ∧ (findDateColumn ((exFilterData.lookup "s1").getD []) = none →
          getFilteredData exFilterSpec exFilterData exFilterValues (some "s1") "w1"
            = (exFilterData.lookup "s1").getD [])
      ∧ ∀ ds2 : String,
          (getFilteredData exFilterSpec exFilterData exFilterValues (some ds2) "w1").Sublist
            ((exFilterData.lookup ds2).getD []) :=
  getFilteredData_dateRange exFilterSpec exFilterData exFilterValues "s1" "w1"
    exFilterWidget exFilterVal (by decide) (by decide) (by decide) (by decide)
    (by decide) (by decide)

/-- A filter state whose value for `f1` has no end date yet. -/
def exPartialValues : List (String × FilterValue) := [("f1", { start := "2024-01-01" })]

/-- Witness for `getFilteredData_noop_when_unset`: with only a start
date set the dataset passes through unchanged. -/
theorem getFilteredData_noop_when_unset_witness :
    getFilteredData exFilterSpec exFilterData exPartialValues (some "s1") "w1"
      = (exFilterData.lookup "s1").getD [] :=
  getFilteredData_noop_when_unset exFilterSpec exFilterData exPartialValues "s1" "w1"
    (by decide)
    (by
      intro fw hfw
      have hl : activeFilters exFilterSpec "w1" = [exFilterWidget] := by decide
      rw [hl, List.mem_singleton] at hfw
      subst hfw
      refine ⟨rfl, ?_⟩
      intro v hv
      have hv2 : exPartialValues.lookup exFilterWidget.id
          = some { start := "2024-01-01", endv := "" } := by decide
      rw [hv2] at hv
      obtain rfl := Option.some.inj hv
      exact Or.inr rfl)

end OliveDemo
